import Mathlib

set_option maxHeartbeats 1000000
set_option maxRecDepth 100000

/-!
Formal model of the `seo-content-agent` pipeline core: the source collector,
URL validator, task record store and the run/brief/article orchestrators,
shallowly embedded from `src/app`.  Machine strings are Lean `String`s,
timestamps are `Nat` clock ticks passed explicitly, external collaborators
(the LLM client, HTTP fetching, file export) are oracle functions supplied in
an environment, and a Python exception is a `PyExc` value threaded through
`Except`.
-/

/-- Python whitespace for `str.strip` / `str.split` / the regex class `\s`
(ASCII part; the embedding ignores exotic unicode whitespace). -/
def isPySpace (c : Char) : Bool :=
  c == ' ' || c == '\t' || c == '\n' || c == '\r' || c == '\x0b' || c == '\x0c'

/-- Python `str.strip()` with no argument: drop leading and trailing whitespace. -/
def pyStrip (s : String) : String :=
  ⟨((s.data.dropWhile isPySpace).reverse.dropWhile isPySpace).reverse⟩

/-- Trailing characters removed by `rstrip("/ ")`. -/
def isSlashSpace (c : Char) : Bool := c == '/' || c == ' '

/-- Python `str.rstrip("/ ")` on a character list. -/
def pyRstripSlashSpace (l : List Char) : List Char :=
  (l.reverse.dropWhile isSlashSpace).reverse

/-- The per-URL normalisation of `collect_seed_urls`:
`url.strip().rstrip("/ ")` (source_collector.py line 29). -/
def cleanUrl (url : String) : String :=
  ⟨pyRstripSlashSpace (pyStrip url).data⟩

/-- A character matched by the regex class `[^\s)\]>\"']` of `URL_RE`. -/
def urlBodyChar (c : Char) : Bool :=
  !(isPySpace c) && c != ')' && c != ']' && c != '>' && c != '"' && c != '\x27'

/-- Length of the scheme prefix (`https://` or `http://`) matched by `URL_RE`
at the head of the character list, if any. -/
def schemeLen (cs : List Char) : Option Nat :=
  if List.isPrefixOf "https://".data cs then some 8
  else if List.isPrefixOf "http://".data cs then some 7
  else none

/-- `re.findall` for the pattern `https?://[^\s)\]>\"']+`: scan left to right,
emit each non-overlapping leftmost-greedy match, resume after it.  The fuel
starts at the list length and the scan consumes at least one character per
step, so the fuel never runs out. -/
def findUrlsAux : Nat → List Char → List String
  | 0, _ => []
  | _, [] => []
  | fuel + 1, c :: rest =>
    match schemeLen (c :: rest) with
    | some k =>
      let after := (c :: rest).drop k
      let body := after.takeWhile urlBodyChar
      if body.isEmpty then findUrlsAux fuel rest
      else ⟨(c :: rest).take k ++ body⟩ :: findUrlsAux fuel (after.drop body.length)
    | none => findUrlsAux fuel rest

/-- `extract_urls_from_text` (source_collector.py lines 8-11). -/
def extract_urls_from_text (text : String) : List String :=
  if text = "" then [] else findUrlsAux text.data.length text.data

/-- The dedup loop of `collect_seed_urls` (source_collector.py lines 26-32):
`seen` is the membership set, emitted URLs come out in scan order. -/
def collectDedupLoop (seen : List String) : List String → List String
  | [] => []
  | url :: rest =>
    let cleaned := cleanUrl url
    if cleaned != "" && !(seen.contains cleaned) then
      cleaned :: collectDedupLoop (cleaned :: seen) rest
    else
      collectDedupLoop seen rest

/-- `collect_seed_urls` (source_collector.py lines 14-33): explicit seeds
first, then URLs scraped from the citation text, then from the overview text,
each cleaned, with empty strings dropped and duplicates removed keeping the
first occurrence.  The `query` argument is unused in the source (`del query`). -/
def collect_seed_urls (query : String) (seed_urls : List String)
    (ai_citations_text ai_overview_text : String) : List String :=
  let _ := query
  let collected := seed_urls
    ++ extract_urls_from_text ai_citations_text
    ++ extract_urls_from_text ai_overview_text
  collectDedupLoop [] collected

/-- Specification-side definition, following the spec text for the Source
Collector: keep each URL's first occurrence, dropping every later duplicate. -/
def keepFirst : List String → List String
  | [] => []
  | a :: l => a :: (keepFirst l).filter (fun b => b != a)

/-- Python `str.lower()` (ASCII part). -/
def pyLower (s : String) : String := ⟨s.data.map Char.toLower⟩

/-- A character allowed inside a URL scheme by `urllib.parse`
(ASCII letters, digits, `+`, `-`, `.`). -/
def isSchemeChar (c : Char) : Bool :=
  c.isAlpha || c.isDigit || c == '+' || c == '-' || c == '.'

/-- The result of `urllib.parse.urlparse` restricted to the three components
`url_validator.py` reads. -/
structure ParsedUrl where
  scheme : String
  netloc : String
  path : String
deriving DecidableEq

/-- Scheme recognition of `urllib.parse.urlsplit`: a colon must exist at a
positive index and every character before it must be a scheme character with
an alphabetic first character; the scheme is lowercased. -/
def splitScheme (cs : List Char) : List Char × List Char :=
  let pre := cs.takeWhile (fun c => c != ':')
  if pre.length = cs.length then ([], cs)
  else
    match pre with
    | [] => ([], cs)
    | c0 :: _ =>
      if c0.isAlpha && pre.all isSchemeChar then
        (pre.map Char.toLower, cs.drop (pre.length + 1))
      else ([], cs)

/-- `urllib.parse.urlparse` for the components used here: scheme, then a
netloc when `//` follows, then the path up to the first `?` or `#`. -/
def urlparse (url : String) : ParsedUrl :=
  let (scheme, rest) := splitScheme url.data
  let hasNetloc := List.isPrefixOf "//".data rest
  let netloc := if hasNetloc
    then (rest.drop 2).takeWhile (fun c => c != '/' && c != '?' && c != '#')
    else []
  let rest2 := if hasNetloc then (rest.drop 2).drop netloc.length else rest
  let path := rest2.takeWhile (fun c => c != '#' && c != '?')
  ⟨⟨scheme⟩, ⟨netloc⟩, ⟨path⟩⟩

/-- `BLOCKED_DOMAINS` (url_validator.py lines 5-17), transcribed verbatim.
Note the `www.` variant of `youtu.be` is not in the set. -/
def BLOCKED_DOMAINS : List String :=
  ["reddit.com", "www.reddit.com",
   "quora.com", "www.quora.com",
   "youtube.com", "www.youtube.com",
   "youtu.be",
   "pinterest.com", "www.pinterest.com",
   "wikipedia.org", "www.wikipedia.org"]

/-- `BLOCKED_PATH_HINTS` (url_validator.py lines 19-26). -/
def BLOCKED_PATH_HINTS : List String :=
  ["/forum", "/forums", "/products", "/shop", "/category", "/tag"]

/-- Python substring containment (`hint in path`). -/
def containsSub (pat : List Char) : List Char → Bool
  | [] => pat.isEmpty
  | c :: rest => List.isPrefixOf pat (c :: rest) || containsSub pat rest

/-- `is_acceptable_url` (url_validator.py lines 29-42). -/
def is_acceptable_url (url : String) : Bool :=
  let parsed := urlparse url
  if !(parsed.scheme == "http" || parsed.scheme == "https") then false
  else if BLOCKED_DOMAINS.contains (pyLower parsed.netloc) then false
  else if BLOCKED_PATH_HINTS.any
      (fun hint => containsSub hint.data (pyLower parsed.path).data) then false
  else true

/-- `select_top_urls` (url_validator.py lines 45-47): keep the acceptable
URLs in order and truncate to `max_urls`. -/
def select_top_urls (urls : List String) (max_urls : Nat) : List String :=
  (urls.filter is_acceptable_url).take max_urls

/-- `UrlContent` (schemas.py lines 13-16). -/
structure UrlContent where
  url : String
  title : String
  text : String
deriving DecidableEq

/-- `ArticleSummary` (schemas.py lines 19-21). -/
structure ArticleSummary where
  url : String
  summary : String
deriving DecidableEq

/-- `RunArtifacts` (schemas.py lines 110-116) with its pydantic defaults. -/
structure RunArtifacts where
  sources : List String := []
  extracted_articles : List UrlContent := []
  summaries : List ArticleSummary := []
  seo_analysis : String := ""
  article_markdown : String := ""
  export_link : Option String := none
deriving DecidableEq

/-- `BriefArtifacts` (schemas.py lines 51-56). -/
structure BriefArtifacts where
  sources : List String := []
  extracted_articles : List UrlContent := []
  summaries : List ArticleSummary := []
  seo_analysis : String := ""
  brief_markdown : String := ""
deriving DecidableEq

/-- `ArticleArtifacts` (schemas.py lines 82-86). -/
structure ArticleArtifacts where
  source_brief_id : Option String := none
  source_brief_markdown : String := ""
  article_markdown : String := ""
  export_link : Option String := none
deriving DecidableEq

/-- One row of the `runs` / `briefs` / `articles` tables (store.py schema,
lines 182-223).  `M` is `Unit` for runs and briefs and `String` for the
articles table, whose extra `mode` column no update ever touches; timestamps
are abstract clock ticks. -/
structure TaskRow (M A : Type) where
  id : String
  user_id : String
  mode : M
  query : String
  status : String
  stage : String
  progress_percent : Int
  error : Option String
  artifacts : A
  created_at : Nat
  updated_at : Nat
deriving DecidableEq

/-- The keyword arguments accepted by `SQLiteStore._update_entity` after the
`allowed` filter (store.py line 492): a field is `none` when not supplied;
`error` is doubly optional because `error=None` can be supplied explicitly. -/
structure UpdateKwargs (A : Type) where
  status : Option String := none
  stage : Option String := none
  progress_percent : Option Int := none
  error : Option (Option String) := none
  artifacts : Option A := none
deriving DecidableEq

/-- True when no updatable field was supplied (`if not updates`, line 494). -/
def UpdateKwargs.isEmpty {A : Type} (u : UpdateKwargs A) : Bool :=
  u.status.isNone && u.stage.isNone && u.progress_percent.isNone
    && u.error.isNone && u.artifacts.isNone

/-- Effect of the generated `UPDATE ... SET` on one matching row: each
supplied column is overwritten and `updated_at` is set to the current time
(store.py lines 499-509). -/
def applyKwargs {M A : Type} (u : UpdateKwargs A) (now : Nat) (r : TaskRow M A) :
    TaskRow M A :=
  { r with
    status := u.status.getD r.status
    stage := u.stage.getD r.stage
    progress_percent := u.progress_percent.getD r.progress_percent
    error := u.error.getD r.error
    artifacts := u.artifacts.getD r.artifacts
    updated_at := now }

/-- `SELECT * FROM <table> WHERE id = ?` (the `get_*_by_id` getters). -/
def getById {M A : Type} (table : List (TaskRow M A)) (rid : String) :
    Option (TaskRow M A) :=
  table.find? (fun r => r.id == rid)

/-- `SQLiteStore._update_entity` (store.py lines 491-511): with no supplied
field it just reads the record back; otherwise it updates every row matching
the id (at most one, since id is the primary key) and re-reads. -/
def update_entity {M A : Type} (table : List (TaskRow M A)) (rid : String)
    (u : UpdateKwargs A) (now : Nat) :
    List (TaskRow M A) × Option (TaskRow M A) :=
  if u.isEmpty then (table, getById table rid)
  else
    let table2 := table.map (fun r => if r.id == rid then applyKwargs u now r else r)
    (table2, getById table2 rid)

/-- The per-user settings consumed by the orchestrators.  The `UserSettings`
pydantic class itself is imported by store.py from schemas.py but its
declaration is absent from the sources; the four fields here are the ones the
orchestrators read, with the types evident from
`StoreBase._row_to_user_settings` (store.py lines 131-143). -/
structure UserSettings where
  brand_name : String
  brand_url : String
  brief_prompt_override : String
  writer_prompt_override : String
deriving DecidableEq

/-- The mutable state behind `run_store`: the three task tables plus the user
settings used by the orchestrators. -/
structure Store where
  runs : List (TaskRow Unit RunArtifacts)
  briefs : List (TaskRow Unit BriefArtifacts)
  articles : List (TaskRow String ArticleArtifacts)
  users : List (String × UserSettings)
deriving DecidableEq

/-- `SQLiteStore.get_run_by_id` (store.py lines 378-381). -/
def get_run_by_id (st : Store) (rid : String) : Option (TaskRow Unit RunArtifacts) :=
  getById st.runs rid

/-- `SQLiteStore.get_brief_by_id` (store.py lines 416-419). -/
def get_brief_by_id (st : Store) (rid : String) : Option (TaskRow Unit BriefArtifacts) :=
  getById st.briefs rid

/-- `SQLiteStore.get_article_by_id` (store.py lines 475-478). -/
def get_article_by_id (st : Store) (rid : String) : Option (TaskRow String ArticleArtifacts) :=
  getById st.articles rid

/-- `SQLiteStore.get_user_settings` (store.py lines 325-336). -/
def get_user_settings (st : Store) (uid : String) : Option UserSettings :=
  (st.users.find? (fun p => p.1 == uid)).map (fun p => p.2)

/-- `SQLiteStore.update_run` (store.py lines 391-392). -/
def update_run (st : Store) (rid : String) (u : UpdateKwargs RunArtifacts)
    (now : Nat) : Store × Option (TaskRow Unit RunArtifacts) :=
  let res := update_entity st.runs rid u now
  ({ st with runs := res.1 }, res.2)

/-- `SQLiteStore.update_brief` (store.py lines 429-430). -/
def update_brief (st : Store) (rid : String) (u : UpdateKwargs BriefArtifacts)
    (now : Nat) : Store × Option (TaskRow Unit BriefArtifacts) :=
  let res := update_entity st.briefs rid u now
  ({ st with briefs := res.1 }, res.2)

/-- `SQLiteStore.update_article` (store.py lines 488-489). -/
def update_article (st : Store) (rid : String) (u : UpdateKwargs ArticleArtifacts)
    (now : Nat) : Store × Option (TaskRow String ArticleArtifacts) :=
  let res := update_entity st.articles rid u now
  ({ st with articles := res.1 }, res.2)

/-- A Python exception as the orchestrators distinguish them: the `except
ValueError` guards catch exactly the first kind, the top-level `except
Exception` catches both. -/
inductive PyExc where
  | valueError (msg : String)
  | otherError (msg : String)
deriving DecidableEq

/-- `str(exc)`. -/
def PyExc.msg : PyExc → String
  | valueError m => m
  | otherError m => m

/-- Whether `except ValueError` catches this exception. -/
def PyExc.isValueError : PyExc → Bool
  | valueError _ => true
  | otherError _ => false

/-- The external collaborators and configuration the pipelines use: the LLM
client (`llm_client.py`), the per-URL content extractor (`extractor.py`,
where `none` stands for any per-URL exception swallowed by
`asyncio.gather(..., return_exceptions=True)`), the file exporter
(`exporter_google.py`) and the model/limit settings (`config.py`). -/
structure Env where
  llmEnabled : Bool
  llmRespond : String → String → String → Except PyExc String
  extract : String → Option UrlContent
  export_to_local_doc : String → String → Except PyExc String
  small_model : String
  analyst_model : String
  writer_model : String
  max_urls : Nat

/-- `LLMClient.complete` (llm_client.py lines 16-27): a fixed string when no
API key is configured, otherwise the model response stripped; the network
call may raise. -/
def llm_complete (env : Env) (model instruction input_text : String) :
    Except PyExc String :=
  if env.llmEnabled = false then
    Except.ok "LLM disabled. Add OPENAI_API_KEY to enable model output."
  else
    match env.llmRespond model instruction input_text with
    | Except.error e => Except.error e
    | Except.ok out => Except.ok (pyStrip out)

/-- `SUMMARY_INSTRUCTION` (summarizer.py). -/
def SUMMARY_INSTRUCTION : String :=
  "You are an SEO analyst. Summarize article with sections: intent, key topics, strengths, missing points, tone, structure, estimated word count, likely target keywords. Return concise markdown."

/-- `ANALYSIS_INSTRUCTION` (seo_analyzer.py). -/
def ANALYSIS_INSTRUCTION : String :=
  "You are a senior SEO strategist. Given article summaries, produce: 1) common coverage, 2) common gaps, 3) tone/style pattern, 4) structural pattern, 5) recommended outranking outline, 6) key entities/phrases to include."

/-- `BRIEF_INSTRUCTION` (brief_builder.py). -/
def BRIEF_INSTRUCTION : String :=
  "You are an SEO brief strategist. Create an editable markdown content brief using the competitor analysis and source summaries. Include these sections with markdown headings: Primary Query, Search Intent, Target Audience, Recommended Title, Meta Description, Core Keywords, Questions To Answer, Competitor Gaps To Win, Recommended Outline, Tone And Brand Notes, CTA Notes. Keep the brief practical so a human editor can modify it before writing."

/-- `FALLBACK_BRIEF_INSTRUCTION` (brief_builder.py). -/
def FALLBACK_BRIEF_INSTRUCTION : String :=
  "You are an SEO strategist creating a provisional content brief from only a search query. State reasonable assumptions clearly. Return editable markdown with headings: Primary Query, Search Intent, Target Audience, Recommended Title, Meta Description, Core Keywords, Questions To Answer, Recommended Outline, Tone And Brand Notes, CTA Notes."

/-- `WRITER_INSTRUCTION` (writer.py). -/
def WRITER_INSTRUCTION : String :=
  "You are an expert SEO writer. Write a new, original article that is factual and grounded in the source analysis. Constraints: 1500-2000 words, clear H2/H3 structure, intro, actionable steps, FAQ, conclusion, meta title and meta description at top. Return markdown only."

/-- `BRIEF_WRITER_INSTRUCTION` (writer.py). -/
def BRIEF_WRITER_INSTRUCTION : String :=
  "You are an expert SEO writer. Write a detailed, original article from the provided content brief. Use the outline, keyword guidance, search intent, and editorial notes in the brief. Constraints: 1500-2000 words, clear H2/H3 structure, intro, actionable steps, FAQ, conclusion, meta title and meta description at top. Return markdown only."

/-- Helper for `pySplitWhitespace`: accumulate the current word (reversed)
while scanning. -/
def pySplitWhitespaceAux (cur : List Char) : List Char → List String
  | [] => if cur.isEmpty then [] else [⟨cur.reverse⟩]
  | c :: rest =>
    if isPySpace c then
      if cur.isEmpty then pySplitWhitespaceAux [] rest
      else ⟨cur.reverse⟩ :: pySplitWhitespaceAux [] rest
    else pySplitWhitespaceAux (c :: cur) rest

/-- Python `str.split()` with no argument: split on whitespace runs,
dropping empty pieces. -/
def pySplitWhitespace (s : String) : List String :=
  pySplitWhitespaceAux [] s.data

/-- `summarize_article` (summarizer.py lines 14-23): a fixed placeholder
below 80 words, otherwise a model call. -/
def summarize_article (env : Env) (article : UrlContent) :
    Except PyExc ArticleSummary :=
  if (pySplitWhitespace article.text).length < 80 then
    Except.ok ⟨article.url, "Content too short for reliable SEO summary."⟩
  else
    match llm_complete env env.small_model SUMMARY_INSTRUCTION
        ("URL: " ++ article.url ++ "\nTitle: " ++ article.title ++ "\n\n"
          ++ article.text) with
    | Except.error e => Except.error e
    | Except.ok s => Except.ok ⟨article.url, s⟩

/-- `analyze_summaries` (seo_analyzer.py lines 14-20). -/
def analyze_summaries (env : Env) (query : String)
    (summaries : List ArticleSummary) : Except PyExc String :=
  let joined := String.intercalate "\n\n"
    (summaries.map (fun s => "Source: " ++ s.url ++ "\n" ++ s.summary))
  llm_complete env env.analyst_model ANALYSIS_INSTRUCTION
    ("Query: " ++ query ++ "\n\n" ++ joined)

/-- The `extra` prompt lines shared by the customized builders
(brief_builder.py / writer.py): a line per non-empty customization field. -/
def customizationLines (brand_name brand_url : String)
    (override_label override_text : String) : List String :=
  (if brand_name != "" then ["Brand name: " ++ brand_name] else [])
    ++ (if brand_url != "" then ["Brand URL: " ++ brand_url] else [])
    ++ (if override_text != "" then [override_label ++ "\n" ++ override_text] else [])

/-- `build_brief_with_customization` (brief_builder.py lines 26-51). -/
def build_brief_with_customization (env : Env) (query : String)
    (summaries : List ArticleSummary)
    (seo_analysis brand_name brand_url prompt_override : String) :
    Except PyExc String :=
  let joined := String.intercalate "\n\n"
    (summaries.map (fun s => "Source: " ++ s.url ++ "\n" ++ s.summary))
  let extra := customizationLines brand_name brand_url
    "Custom brief instructions:" prompt_override
  llm_complete env env.analyst_model BRIEF_INSTRUCTION
    ("Primary query: " ++ query ++ "\n\n" ++ String.intercalate "\n" extra
      ++ "\n\nCompetitor summaries:\n" ++ joined
      ++ "\n\nSEO analysis:\n" ++ seo_analysis)

/-- `build_brief_from_query_with_customization` (brief_builder.py lines 58-75). -/
def build_brief_from_query_with_customization (env : Env)
    (query brand_name brand_url prompt_override : String) : Except PyExc String :=
  let extra := customizationLines brand_name brand_url
    "Custom brief instructions:" prompt_override
  llm_complete env env.analyst_model FALLBACK_BRIEF_INSTRUCTION
    ("Primary query: " ++ query ++ "\n\n" ++ String.intercalate "\n" extra)

/-- `write_article` (writer.py lines 20-25). -/
def write_article (env : Env) (query seo_analysis : String) : Except PyExc String :=
  llm_complete env env.writer_model WRITER_INSTRUCTION
    ("Primary query: " ++ query ++ "\n\nSEO analysis:\n" ++ seo_analysis)

/-- `write_article_from_brief_with_customization` (writer.py lines 32-54). -/
def write_article_from_brief_with_customization (env : Env)
    (query brief_markdown brand_name brand_url prompt_override : String) :
    Except PyExc String :=
  let extra := customizationLines brand_name brand_url
    "Custom writer instructions:" prompt_override
  llm_complete env env.writer_model BRIEF_WRITER_INSTRUCTION
    ("Primary query: " ++ query ++ "\n\n" ++ String.intercalate "\n" extra
      ++ "\n\nContent brief:\n" ++ brief_markdown)

/-- The message of the first distinguished recoverable error. -/
def noQualifyingMsg : String :=
  "No qualifying URLs found. Provide seed URLs or citation text containing links."

/-- The message of the second distinguished recoverable error. -/
def noExtractMsg : String := "Could not extract content from selected URLs."

/-- `build_source_analysis` (source_analysis.py lines 15-47): collect,
select, extract (per-URL failures dropped), then summarize and analyze; the
two zero-source conditions raise `ValueError`. -/
def build_source_analysis (env : Env) (query : String) (seed_urls : List String)
    (ai_citations_text ai_overview_text : String) :
    Except PyExc (List String × List UrlContent × List ArticleSummary × String) :=
  let candidates := collect_seed_urls query seed_urls ai_citations_text ai_overview_text
  let top_urls := select_top_urls candidates env.max_urls
  if top_urls.isEmpty then
    Except.error (PyExc.valueError noQualifyingMsg)
  else
    let extracted := top_urls.filterMap env.extract
    if extracted.isEmpty then
      Except.error (PyExc.valueError noExtractMsg)
    else
      match extracted.mapM (summarize_article env) with
      | Except.error e => Except.error e
      | Except.ok summaries =>
        match analyze_summaries env query summaries with
        | Except.error e => Except.error e
        | Except.ok seo_analysis =>
          Except.ok (top_urls, extracted, summaries, seo_analysis)

/-- The methods defined on `SQLiteStore` / `PostgresStore` (store.py),
including the helpers inherited from `StoreBase`.  Neither `update` nor
`list_queued_runs` is among them, although run_pipeline.py and scheduler.py
call both. -/
def sqliteStoreMethods : List String :=
  ["create_user", "authenticate_user", "create_session", "get_user_by_session",
   "delete_session", "get_user_settings", "update_user_settings",
   "create_run", "get_run", "get_run_by_id", "list_runs", "update_run",
   "create_brief", "get_brief", "get_brief_by_id", "list_briefs", "update_brief",
   "create_article", "get_article", "get_article_by_id", "list_articles",
   "update_article",
   "_init_schema", "_update_entity", "_utcnow", "_now_iso", "_parse_dt",
   "_normalize_email", "_hash_password", "_verify_password", "_row_to_run",
   "_row_to_brief", "_row_to_article", "_row_to_user", "_row_to_user_settings"]

/-- The attribute lookup `run_store.update(...)` performed by
run_pipeline.py (lines 24, 63, 65): no store class defines `update`, so the
lookup raises `AttributeError`; the other branch models what the call would
do if the attribute existed and is unreachable. -/
def run_store_update (st : Store) (rid : String) (u : UpdateKwargs RunArtifacts)
    (now : Nat) : Except PyExc (Store × Option (TaskRow Unit RunArtifacts)) :=
  if sqliteStoreMethods.contains "update" then
    Except.ok (update_run st rid u now)
  else
    Except.error (PyExc.otherError
      "AttributeError: SQLiteStore object has no attribute update")

/-- `process_run` (run_pipeline.py lines 17-66).  The first store call sits
before the `try` block, so an exception there escapes the orchestrator (the
fire-and-forget task swallows it); the returned `Option PyExc` is that
escaped exception.  An exception raised by the failure handler itself (line
65) also escapes. -/
def process_run (env : Env) (st : Store) (clock : Nat) (run_id query : String)
    (seed_urls : List String) (ai_citations_text ai_overview_text : String) :
    Store × Option PyExc :=
  match run_store_update st run_id { status := some "running" } clock with
  | Except.error e => (st, some e)
  | Except.ok (st0, _) =>
    let c0 := clock + 1
    let body : Except PyExc Store :=
      (let candidates := collect_seed_urls query seed_urls ai_citations_text ai_overview_text
       let top_urls := select_top_urls candidates env.max_urls
       if top_urls.isEmpty then
         Except.error (PyExc.valueError noQualifyingMsg)
       else
         let extracted := top_urls.filterMap env.extract
         if extracted.isEmpty then
           Except.error (PyExc.valueError noExtractMsg)
         else
           match extracted.mapM (summarize_article env) with
           | Except.error e => Except.error e
           | Except.ok summaries =>
             match analyze_summaries env query summaries with
             | Except.error e => Except.error e
             | Except.ok analysis =>
               match write_article env query analysis with
               | Except.error e => Except.error e
               | Except.ok article =>
                 match env.export_to_local_doc query article with
                 | Except.error e => Except.error e
                 | Except.ok export_link =>
                   let artifacts : RunArtifacts :=
                     { sources := top_urls, extracted_articles := extracted,
                       summaries := summaries, seo_analysis := analysis,
                       article_markdown := article, export_link := some export_link }
                   match run_store_update st0 run_id
                       { status := some "completed", artifacts := some artifacts } c0 with
                   | Except.error e => Except.error e
                   | Except.ok (st1, _) => Except.ok st1)
    match body with
    | Except.ok st1 => (st1, none)
    | Except.error e =>
      match run_store_update st0 run_id
          { status := some "failed", error := some (some e.msg) } (c0 + 1) with
      | Except.error e2 => (st0, some e2)
      | Except.ok (st2, _) => (st2, none)

/-- The keyword arguments of the first `update_brief` call of
`process_brief` (brief_pipeline.py line 19). -/
def briefRunningKwargs : UpdateKwargs BriefArtifacts :=
  { status := some "running", stage := some "collecting_sources",
    progress_percent := some 10, error := some none }

/-- The degraded `seo_analysis` text of the brief fallback path
(brief_pipeline.py line 46). -/
def briefFallbackMsg : String :=
  "No competitor sources were provided. This brief is based on the query only and should be reviewed."

/-- The `except ValueError` suite of `process_brief` together with the
shared tail (brief_pipeline.py lines 44-68): re-post the stage update, build
the query-only brief, store the completed record with empty source lists and
the caveat analysis text. -/
def brief_fallback (env : Env) (st : Store) (c : Nat)
    (brief_id query brand_name brand_url prompt_override : String) :
    (Store × Nat) × Option PyExc :=
  let st1 := (update_brief st brief_id
    { stage := some "building_brief", progress_percent := some 78 } c).1
  let c1 := c + 1
  match build_brief_from_query_with_customization env query brand_name brand_url
      prompt_override with
  | Except.error e => ((st1, c1), some e)
  | Except.ok brief_markdown =>
    let artifacts : BriefArtifacts :=
      { sources := [], extracted_articles := [], summaries := [],
        seo_analysis := briefFallbackMsg, brief_markdown := brief_markdown }
    let st2 := (update_brief st1 brief_id
      { status := some "completed", stage := some "completed",
        progress_percent := some 100, artifacts := some artifacts } c1).1
    ((st2, c1 + 1), none)

/-- The `try` suite of `process_brief` (brief_pipeline.py lines 21-68),
returning the store and clock as mutated so far together with the exception
that escaped it, if any. -/
def brief_body (env : Env) (st : Store) (c : Nat) (brief_id query : String)
    (seed_urls : List String) (ai_citations_text ai_overview_text : String) :
    (Store × Nat) × Option PyExc :=
  let brief_record := get_brief_by_id st brief_id
  let user_settings := match brief_record with
    | some r => get_user_settings st r.user_id
    | none => none
  let brand_name := match user_settings with | some s => s.brand_name | none => ""
  let brand_url := match user_settings with | some s => s.brand_url | none => ""
  let prompt_override := match user_settings with
    | some s => s.brief_prompt_override | none => ""
  match build_source_analysis env query seed_urls ai_citations_text ai_overview_text with
  | Except.ok (top_urls, extracted, summaries, seo_analysis) =>
    let st1 := (update_brief st brief_id
      { stage := some "building_brief", progress_percent := some 78 } c).1
    let c1 := c + 1
    match build_brief_with_customization env query summaries seo_analysis
        brand_name brand_url prompt_override with
    | Except.ok brief_markdown =>
      let artifacts : BriefArtifacts :=
        { sources := top_urls, extracted_articles := extracted,
          summaries := summaries, seo_analysis := seo_analysis,
          brief_markdown := brief_markdown }
      let st2 := (update_brief st1 brief_id
        { status := some "completed", stage := some "completed",
          progress_percent := some 100, artifacts := some artifacts } c1).1
      ((st2, c1 + 1), none)
    | Except.error e =>
      if e.isValueError then
        brief_fallback env st1 c1 brief_id query brand_name brand_url prompt_override
      else ((st1, c1), some e)
  | Except.error e =>
    if e.isValueError then
      brief_fallback env st c brief_id query brand_name brand_url prompt_override
    else ((st, c), some e)

/-- `process_brief` (brief_pipeline.py lines 12-76): running update, then the
try suite, then the top-level failure handler. -/
def process_brief (env : Env) (st : Store) (clock : Nat) (brief_id query : String)
    (seed_urls : List String) (ai_citations_text ai_overview_text : String) : Store :=
  let st0 := (update_brief st brief_id briefRunningKwargs clock).1
  match brief_body env st0 (clock + 1) brief_id query seed_urls
      ai_citations_text ai_overview_text with
  | ((st1, _), none) => st1
  | ((st1, c1), some e) =>
    (update_brief st1 brief_id
      { status := some "failed", stage := some "failed",
        progress_percent := some 100, error := some (some e.msg) } c1).1

/-- The keyword arguments of the first `update_article` call of
`process_quick_draft` (article_pipeline.py line 57). -/
def quickDraftRunningKwargs : UpdateKwargs ArticleArtifacts :=
  { status := some "running", stage := some "collecting_sources",
    progress_percent := some 10, error := some none }

/-- The tail of `process_quick_draft` after the internal brief exists
(article_pipeline.py lines 90-113): write the article, export it, store the
completed record. -/
def quick_draft_tail (env : Env) (st : Store) (c : Nat)
    (article_id query brand_name brand_url writer_prompt_override
      brief_markdown : String) : (Store × Nat) × Option PyExc :=
  let st1 := (update_article st article_id
    { stage := some "writing_article", progress_percent := some 84 } c).1
  let c1 := c + 1
  match write_article_from_brief_with_customization env query brief_markdown
      brand_name brand_url writer_prompt_override with
  | Except.error e => ((st1, c1), some e)
  | Except.ok article_markdown =>
    let st2 := (update_article st1 article_id
      { stage := some "exporting_output", progress_percent := some 95 } c1).1
    let c2 := c1 + 1
    match env.export_to_local_doc (if query = "" then "quick-draft" else query)
        article_markdown with
    | Except.error e => ((st2, c2), some e)
    | Except.ok export_link =>
      let artifacts : ArticleArtifacts :=
        { source_brief_id := none, source_brief_markdown := brief_markdown,
          article_markdown := article_markdown, export_link := some export_link }
      let st3 := (update_article st2 article_id
        { status := some "completed", stage := some "completed",
          progress_percent := some 100, artifacts := some artifacts } c2).1
      ((st3, c2 + 1), none)

/-- The `except ValueError` suite of `process_quick_draft`
(article_pipeline.py lines 82-89) followed by the shared tail. -/
def quick_draft_fallback (env : Env) (st : Store) (c : Nat)
    (article_id query brand_name brand_url brief_prompt_override
      writer_prompt_override : String) : (Store × Nat) × Option PyExc :=
  let st1 := (update_article st article_id
    { stage := some "building_internal_brief", progress_percent := some 72 } c).1
  let c1 := c + 1
  match build_brief_from_query_with_customization env query brand_name brand_url
      brief_prompt_override with
  | Except.error e => ((st1, c1), some e)
  | Except.ok brief_markdown =>
    quick_draft_tail env st1 c1 article_id query brand_name brand_url
      writer_prompt_override brief_markdown

/-- The `try` suite of `process_quick_draft` (article_pipeline.py lines
59-113). -/
def quick_draft_body (env : Env) (st : Store) (c : Nat) (article_id query : String)
    (seed_urls : List String) (ai_citations_text ai_overview_text : String) :
    (Store × Nat) × Option PyExc :=
  let article_record := get_article_by_id st article_id
  let user_settings := match article_record with
    | some r => get_user_settings st r.user_id
    | none => none
  let brand_name := match user_settings with | some s => s.brand_name | none => ""
  let brand_url := match user_settings with | some s => s.brand_url | none => ""
  let brief_prompt_override := match user_settings with
    | some s => s.brief_prompt_override | none => ""
  let writer_prompt_override := match user_settings with
    | some s => s.writer_prompt_override | none => ""
  match build_source_analysis env query seed_urls ai_citations_text ai_overview_text with
  | Except.ok (_, _, summaries, seo_analysis) =>
    let st1 := (update_article st article_id
      { stage := some "building_internal_brief", progress_percent := some 72 } c).1
    let c1 := c + 1
    match build_brief_with_customization env query summaries seo_analysis
        brand_name brand_url brief_prompt_override with
    | Except.ok brief_markdown =>
      quick_draft_tail env st1 c1 article_id query brand_name brand_url
        writer_prompt_override brief_markdown
    | Except.error e =>
      if e.isValueError then
        quick_draft_fallback env st1 c1 article_id query brand_name brand_url
          brief_prompt_override writer_prompt_override
      else ((st1, c1), some e)
  | Except.error e =>
    if e.isValueError then
      quick_draft_fallback env st c article_id query brand_name brand_url
        brief_prompt_override writer_prompt_override
    else ((st, c), some e)

/-- `process_quick_draft` (article_pipeline.py lines 50-115). -/
def process_quick_draft (env : Env) (st : Store) (clock : Nat)
    (article_id query : String) (seed_urls : List String)
    (ai_citations_text ai_overview_text : String) : Store :=
  let st0 := (update_article st article_id quickDraftRunningKwargs clock).1
  match quick_draft_body env st0 (clock + 1) article_id query seed_urls
      ai_citations_text ai_overview_text with
  | ((st1, _), none) => st1
  | ((st1, c1), some e) =>
    (update_article st1 article_id
      { status := some "failed", stage := some "failed",
        progress_percent := some 100, error := some (some e.msg) } c1).1

/-- The keyword arguments of the first `update_article` call of
`process_article_from_brief` (article_pipeline.py line 15). -/
def fromBriefRunningKwargs : UpdateKwargs ArticleArtifacts :=
  { status := some "running", stage := some "writing_article",
    progress_percent := some 15, error := some none }

/-- The `try` suite of `process_article_from_brief` (article_pipeline.py
lines 17-41). -/
def article_from_brief_body (env : Env) (st : Store) (c : Nat)
    (article_id query source_brief_id brief_markdown : String) :
    (Store × Nat) × Option PyExc :=
  let article_record := get_article_by_id st article_id
  let user_settings := match article_record with
    | some r => get_user_settings st r.user_id
    | none => none
  let brand_name := match user_settings with | some s => s.brand_name | none => ""
  let brand_url := match user_settings with | some s => s.brand_url | none => ""
  let writer_prompt_override := match user_settings with
    | some s => s.writer_prompt_override | none => ""
  match write_article_from_brief_with_customization env query brief_markdown
      brand_name brand_url writer_prompt_override with
  | Except.error e => ((st, c), some e)
  | Except.ok article_markdown =>
    let st1 := (update_article st article_id
      { stage := some "exporting_output", progress_percent := some 90 } c).1
    let c1 := c + 1
    match env.export_to_local_doc (if query = "" then "content-article" else query)
        article_markdown with
    | Except.error e => ((st1, c1), some e)
    | Except.ok export_link =>
      let artifacts : ArticleArtifacts :=
        { source_brief_id := some source_brief_id,
          source_brief_markdown := brief_markdown,
          article_markdown := article_markdown, export_link := some export_link }
      let st2 := (update_article st1 article_id
        { status := some "completed", stage := some "completed",
          progress_percent := some 100, artifacts := some artifacts } c1).1
      ((st2, c1 + 1), none)

/-- `process_article_from_brief` (article_pipeline.py lines 14-43). -/
def process_article_from_brief (env : Env) (st : Store) (clock : Nat)
    (article_id query source_brief_id brief_markdown : String) : Store :=
  let st0 := (update_article st article_id fromBriefRunningKwargs clock).1
  match article_from_brief_body env st0 (clock + 1) article_id query
      source_brief_id brief_markdown with
  | ((st1, _), none) => st1
  | ((st1, c1), some e) =>
    (update_article st1 article_id
      { status := some "failed", stage := some "failed",
        progress_percent := some 100, error := some (some e.msg) } c1).1

/-- `process_article_from_custom_brief` (article_pipeline.py lines 46-47). -/
def process_article_from_custom_brief (env : Env) (st : Store) (clock : Nat)
    (article_id query brief_markdown : String) : Store :=
  process_article_from_brief env st clock article_id query "" brief_markdown

/-- A job registration on the `AsyncIOScheduler`. -/
structure SchedulerJob where
  name : String
  interval_minutes : Nat
deriving DecidableEq

/-- `start_scheduler` (scheduler.py lines 30-34): registers the
`_retry_stuck_runs` sweep at a two-minute interval and starts the scheduler. -/
def start_scheduler : List SchedulerJob :=
  [{ name := "_retry_stuck_runs", interval_minutes := 2 }]

/-- `on_startup` (main.py lines 78-80): calls `start_scheduler`. -/
def on_startup : List SchedulerJob := start_scheduler

/-- `QueuedRun` (schemas.py lines 132-138). -/
structure QueuedRun where
  run_id : String
  user_id : String
  query : String
  seed_urls : List String
  ai_citations_text : String
  ai_overview_text : String
deriving DecidableEq

/-- The attribute lookup `run_store.list_queued_runs()` (scheduler.py line
15): no store class defines `list_queued_runs`, so the lookup raises
`AttributeError`; the other branch is unreachable and stands for the missing
method. -/
def run_store_list_queued_runs (st : Store) : Except PyExc (List QueuedRun) :=
  let _ := st
  if sqliteStoreMethods.contains "list_queued_runs" then Except.ok []
  else
    Except.error (PyExc.otherError
      "AttributeError: SQLiteStore object has no attribute list_queued_runs")

/-- `_retry_stuck_runs` (scheduler.py lines 14-27): list the queued runs and
re-dispatch each one still `queued`; the result is the list of re-dispatched
run ids. -/
def retry_stuck_runs (st : Store) : Except PyExc (List String) :=
  match run_store_list_queued_runs st with
  | Except.error e => Except.error e
  | Except.ok queued =>
    Except.ok ((queued.filter (fun run =>
      match get_run_by_id st run.run_id with
      | some existing => existing.status == "queued"
      | none => false)).map (fun run => run.run_id))

/-- A demonstration run row used by concrete store instances. -/
def demoRunRow : TaskRow Unit RunArtifacts :=
  { id := "r1", user_id := "u1", mode := (), query := "best espresso machines",
    status := "queued", stage := "queued", progress_percent := 0, error := none,
    artifacts := {}, created_at := 5, updated_at := 5 }

/-- A one-row runs table. -/
def demoRunTable : List (TaskRow Unit RunArtifacts) := [demoRunRow]

/-- A demonstration store holding only the demonstration run row. -/
def demoStore : Store :=
  { runs := demoRunTable, briefs := [], articles := [], users := [] }

/-- A demonstration brief row. -/
def demoBriefRow : TaskRow Unit BriefArtifacts :=
  { id := "b1", user_id := "u1", mode := (), query := "q",
    status := "queued", stage := "queued", progress_percent := 0, error := none,
    artifacts := {}, created_at := 0, updated_at := 0 }

/-- A demonstration quick-draft article row. -/
def demoArticleRow : TaskRow String ArticleArtifacts :=
  { id := "a1", user_id := "u1", mode := "quick_draft", query := "q",
    status := "queued", stage := "queued", progress_percent := 0, error := none,
    artifacts := {}, created_at := 0, updated_at := 0 }

/-- A demonstration store with one queued brief and one queued article and no
user settings row. -/
def cexStore : Store :=
  { runs := [], briefs := [demoBriefRow], articles := [demoArticleRow], users := [] }

/-- An environment whose content extraction fails for every URL (every fetch
raises) and whose LLM is disabled. -/
def demoFailEnv : Env :=
  { llmEnabled := false, llmRespond := fun _ _ _ => Except.ok "",
    extract := fun _ => none,
    export_to_local_doc := fun _ _ => Except.ok "exports/demo.md",
    small_model := "gpt-4.1-mini", analyst_model := "gpt-4.1-mini",
    writer_model := "gpt-4.1", max_urls := 3 }

/-- An environment whose model call for the full brief raises `ValueError`
while every other model call succeeds; extraction returns a short text. -/
def cexBriefEnv : Env :=
  { llmEnabled := true,
    llmRespond := fun _ instruction _ =>
      if instruction == BRIEF_INSTRUCTION then
        Except.error (PyExc.valueError "model rejected the brief request")
      else Except.ok "model output text",
    extract := fun url => some { url := url, title := "T", text := "short text" },
    export_to_local_doc := fun _ _ => Except.ok "exports/demo.md",
    small_model := "gpt-4.1-mini", analyst_model := "gpt-4.1-mini",
    writer_model := "gpt-4.1", max_urls := 3 }

/-- An environment whose competitive-analysis model call raises a
non-`ValueError` exception; extraction returns a short text. -/
def quotaFailEnv : Env :=
  { llmEnabled := true,
    llmRespond := fun _ instruction _ =>
      if instruction == ANALYSIS_INSTRUCTION then
        Except.error (PyExc.otherError "model quota exceeded")
      else Except.ok "model output text",
    extract := fun url => some { url := url, title := "T", text := "short text" },
    export_to_local_doc := fun _ _ => Except.ok "exports/demo.md",
    small_model := "gpt-4.1-mini", analyst_model := "gpt-4.1-mini",
    writer_model := "gpt-4.1", max_urls := 3 }

theorem keepFirst_nil : keepFirst [] = [] := rfl

theorem keepFirst_cons (a : String) (l : List String) :
    keepFirst (a :: l) = a :: (keepFirst l).filter (fun b => b != a) := rfl

theorem mem_keepFirst {b : String} {l : List String} :
    b ∈ keepFirst l ↔ b ∈ l := by
  induction l with
  | nil => simp [keepFirst]
  | cons a t ih =>
    rw [keepFirst_cons]
    by_cases hba : b = a
    · subst hba; simp
    · simp only [List.mem_cons, List.mem_filter]
      constructor
      · rintro (h | ⟨h, _⟩)
        · exact Or.inl h
        · exact Or.inr (ih.mp h)
      · rintro (h | h)
        · exact Or.inl h
        · exact Or.inr ⟨ih.mpr h, by simp [bne, hba]⟩

theorem keepFirst_nodup (l : List String) : (keepFirst l).Nodup := by
  induction l with
  | nil => simp [keepFirst]
  | cons a t ih =>
    rw [keepFirst_cons]
    refine List.Nodup.cons ?_ (ih.filter _)
    intro hmem
    have := List.of_mem_filter hmem
    simp [bne] at this

theorem filter_keepFirst (p : String → Bool) (l : List String) :
    (keepFirst l).filter p = keepFirst (l.filter p) := by
  induction l with
  | nil => simp [keepFirst]
  | cons a t ih =>
    rw [keepFirst_cons]
    cases hpa : p a
    · rw [List.filter_cons, List.filter_cons, hpa]
      simp only [Bool.false_eq_true, if_false]
      rw [List.filter_filter, ← ih]
      apply List.filter_congr
      intro b _
      cases hb : p b
      · simp
      · have hba : (b != a) = true := by
          simp only [bne_iff_ne, ne_eq]
          intro hEq
          subst hEq
          rw [hb] at hpa
          exact Bool.true_eq_false.mp hpa
        simp [hba]
    · rw [List.filter_cons, List.filter_cons, hpa]
      simp only [if_true]
      rw [keepFirst_cons, List.filter_filter, ← ih, List.filter_filter]
      congr 1
      apply List.filter_congr
      intro b _
      cases hb : p b <;> cases hba : b != a <;> simp [hb, hba]

theorem collectDedupLoop_eq_keepFirst (l : List String) : ∀ seen : List String,
    collectDedupLoop seen l
      = keepFirst (((l.map cleanUrl).filter (fun u => u != "")).filter
          (fun u => !(seen.contains u))) := by
  induction l with
  | nil => intro seen; simp [collectDedupLoop, keepFirst]
  | cons url rest ih =>
    intro seen
    rw [List.map_cons]
    cases hne : cleanUrl url != ""
    · have l1 : collectDedupLoop seen (url :: rest) = collectDedupLoop seen rest := by
        simp [collectDedupLoop, hne]
      have l2 : (cleanUrl url :: rest.map cleanUrl).filter (fun u => u != "")
          = (rest.map cleanUrl).filter (fun u => u != "") := by
        rw [List.filter_cons]
        simp [hne]
      rw [l1, l2]
      exact ih seen
    · have l2 : (cleanUrl url :: rest.map cleanUrl).filter (fun u => u != "")
          = cleanUrl url :: (rest.map cleanUrl).filter (fun u => u != "") := by
        rw [List.filter_cons]
        simp [hne]
      rw [l2]
      cases hseen : seen.contains (cleanUrl url)
      · have hmem : cleanUrl url ∉ seen := by simpa using hseen
        have l1 : collectDedupLoop seen (url :: rest)
            = cleanUrl url :: collectDedupLoop (cleanUrl url :: seen) rest := by
          simp [collectDedupLoop, hne, hmem]
        have l3 : (cleanUrl url :: (rest.map cleanUrl).filter (fun u => u != "")).filter
              (fun u => !(seen.contains u))
            = cleanUrl url :: ((rest.map cleanUrl).filter (fun u => u != "")).filter
              (fun u => !(seen.contains u)) := by
          rw [List.filter_cons]
          simp [hmem]
        rw [l1, l3, keepFirst_cons, ih (cleanUrl url :: seen)]
        congr 1
        rw [filter_keepFirst, List.filter_filter, List.filter_filter, List.filter_filter]
        congr 1
        apply List.filter_congr
        intro b _
        by_cases hb : b = cleanUrl url
        · subst hb
          simp [List.contains_cons]
        · have hb' : (b != cleanUrl url) = true := by simp [bne_iff_ne, hb]
          have hbeq : (b == cleanUrl url) = false := by simp [hb]
          by_cases hbc : b ∈ seen <;> cases hbe : b != "" <;>
            simp [List.contains_cons, hb', hbeq, hbe, hb, hbc]
      · have hmem : cleanUrl url ∈ seen := by simpa using hseen
        have l1 : collectDedupLoop seen (url :: rest) = collectDedupLoop seen rest := by
          simp [collectDedupLoop, hne, hmem]
        have l3 : (cleanUrl url :: (rest.map cleanUrl).filter (fun u => u != "")).filter
              (fun u => !(seen.contains u))
            = ((rest.map cleanUrl).filter (fun u => u != "")).filter
              (fun u => !(seen.contains u)) := by
          rw [List.filter_cons]
          simp [hmem]
        rw [l1, l3]
        exact ih seen

theorem head?_dropWhile_not (p : Char → Bool) :
    ∀ (l : List Char) (c : Char), (l.dropWhile p).head? = some c → p c = false := by
  intro l
  induction l with
  | nil => intro c h; simp [List.dropWhile] at h
  | cons a t ih =>
    intro c h
    rw [List.dropWhile_cons] at h
    by_cases hpa : p a = true
    · rw [if_pos hpa] at h
      exact ih c h
    · rw [if_neg hpa] at h
      have hac : a = c := by simpa using h
      subst hac
      exact Bool.eq_false_iff.mpr hpa

theorem cleanUrl_getLast_not_slash_space (u : String) {c : Char}
    (h : (cleanUrl u).data.getLast? = some c) : c ≠ '/' ∧ c ≠ ' ' := by
  have hrev : (cleanUrl u).data.reverse.head? = some c := by
    rw [List.head?_reverse]
    exact h
  have hdata : (cleanUrl u).data.reverse
      = ((pyStrip u).data.reverse.dropWhile isSlashSpace) := by
    simp [cleanUrl, pyRstripSlashSpace]
  rw [hdata] at hrev
  have hns := head?_dropWhile_not isSlashSpace _ _ hrev
  simp [isSlashSpace] at hns
  exact hns

/-- C7: for every seed list, citation text and overview text, the Source
Collector output is the first-occurrence deduplication of the cleaned
concatenation (priority seeds, then citation URLs, then overview URLs), has no
duplicates, contains every non-empty cleaned candidate, and every emitted URL
is non-empty with neither a trailing slash nor a trailing space. -/
theorem collect_seed_urls_spec (query : String) (seeds : List String)
    (cit ov : String) :
    collect_seed_urls query seeds cit ov
        = keepFirst ((((seeds ++ extract_urls_from_text cit
            ++ extract_urls_from_text ov).map cleanUrl).filter (fun u => u != ""))) ∧
    (collect_seed_urls query seeds cit ov).Nodup ∧
    (∀ v ∈ seeds ++ extract_urls_from_text cit ++ extract_urls_from_text ov,
      cleanUrl v ≠ "" → cleanUrl v ∈ collect_seed_urls query seeds cit ov) ∧
    (∀ u ∈ collect_seed_urls query seeds cit ov,
      u ≠ "" ∧ ∀ c, u.data.getLast? = some c → c ≠ '/' ∧ c ≠ ' ') := by
  have heq : collect_seed_urls query seeds cit ov
      = keepFirst ((((seeds ++ extract_urls_from_text cit
          ++ extract_urls_from_text ov).map cleanUrl).filter (fun u => u != ""))) := by
    unfold collect_seed_urls
    rw [collectDedupLoop_eq_keepFirst]
    congr 1
    rw [List.filter_filter]
    apply List.filter_congr
    intro u _
    simp [List.contains_nil]
  refine ⟨heq, ?_, ?_, ?_⟩
  · rw [heq]; exact keepFirst_nodup _
  · intro v hv hne
    rw [heq, mem_keepFirst, List.mem_filter]
    exact ⟨List.mem_map_of_mem cleanUrl hv, by simp [hne]⟩
  · intro u hu
    rw [heq, mem_keepFirst, List.mem_filter] at hu
    obtain ⟨hmap, hne⟩ := hu
    obtain ⟨v, _, hv⟩ := List.mem_map.mp hmap
    constructor
    · simpa using hne
    · intro c hc
      subst hv
      exact cleanUrl_getLast_not_slash_space v hc

theorem is_acceptable_url_iff (u : String) :
    is_acceptable_url u = true ↔
      ((urlparse u).scheme = "http" ∨ (urlparse u).scheme = "https") ∧
      pyLower (urlparse u).netloc ∉ BLOCKED_DOMAINS ∧
      (∀ hint ∈ BLOCKED_PATH_HINTS,
        containsSub hint.data (pyLower (urlparse u).path).data = false) := by
  unfold is_acceptable_url
  cases h1 : ((urlparse u).scheme == "http" || (urlparse u).scheme == "https")
  · simp only [h1, Bool.not_false, if_true]
    constructor
    · intro h
      exact absurd h (by simp)
    · rintro ⟨hs, -, -⟩
      rw [show ((urlparse u).scheme == "http" || (urlparse u).scheme == "https") = true by
        rcases hs with hs | hs <;> simp [hs]] at h1
      exact absurd h1 (by simp)
  · simp only [h1, Bool.not_true, Bool.false_eq_true, if_false]
    have hs : (urlparse u).scheme = "http" ∨ (urlparse u).scheme = "https" := by
      rcases Bool.or_eq_true_iff.mp h1 with h | h
      · exact Or.inl (by simpa using h)
      · exact Or.inr (by simpa using h)
    cases h2 : BLOCKED_DOMAINS.contains (pyLower (urlparse u).netloc)
    · have hnb : pyLower (urlparse u).netloc ∉ BLOCKED_DOMAINS := by simpa using h2
      simp only [h2, Bool.false_eq_true, if_false]
      cases h3 : BLOCKED_PATH_HINTS.any
          (fun hint => containsSub hint.data (pyLower (urlparse u).path).data)
      · simp only [h3, Bool.false_eq_true, if_false]
        refine ⟨fun _ => ⟨hs, hnb, ?_⟩, fun _ => trivial⟩
        intro hint hmem
        have := List.any_eq_false.mp h3 hint hmem
        cases hC : containsSub hint.data (pyLower (urlparse u).path).data
        · rfl
        · exact absurd hC this
      · simp only [h3, if_true]
        constructor
        · intro h
          exact absurd h (by simp)
        · rintro ⟨-, -, hhints⟩
          obtain ⟨hint, hmem, hC⟩ := List.any_eq_true.mp h3
          rw [hhints hint hmem] at hC
          exact absurd hC (by simp)
    · have hb : pyLower (urlparse u).netloc ∈ BLOCKED_DOMAINS := by simpa using h2
      simp only [h2, if_true]
      constructor
      · intro h
        exact absurd h (by simp)
      · rintro ⟨-, hnb, -⟩
        exact absurd hb hnb

/-- C8 counterexample: the claim demands that every URL whose host is a
deny-listed domain, exactly or `www.`-prefixed, be excluded, but
`www.youtu.be` (the `www.`-prefixed form of the deny-listed `youtu.be`) is
not in the transcribed set, so the validator accepts it and returns it. -/
theorem select_top_urls_www_prefix_cex :
    "youtu.be" ∈ BLOCKED_DOMAINS ∧
    pyLower (urlparse "https://www.youtu.be/abc").netloc = "www.youtu.be" ∧
    is_acceptable_url "https://www.youtu.be/abc" = true ∧
    select_top_urls ["https://www.youtu.be/abc"] 3 = ["https://www.youtu.be/abc"] := by
  refine ⟨by decide, by decide, by decide, by decide⟩

/-- C8 amended: the validator excludes exactly the URLs whose scheme is not
`http`/`https`, whose lowercased host is an exact member of the deny-list set
(which lists `www.` variants for every blocked domain except `youtu.be`), or
whose lowercased path contains a blocked hint; all other URLs are kept in
input order, and the output length never exceeds the configured maximum, the
whole filtered list being returned when it fits that maximum. -/
theorem select_top_urls_spec (urls : List String) (maxUrls : Nat) :
    (select_top_urls urls maxUrls).length ≤ maxUrls ∧
    (select_top_urls urls maxUrls).Sublist urls ∧
    (∀ u ∈ select_top_urls urls maxUrls, is_acceptable_url u = true) ∧
    (∀ u, is_acceptable_url u = true ↔
      ((urlparse u).scheme = "http" ∨ (urlparse u).scheme = "https") ∧
      pyLower (urlparse u).netloc ∉ BLOCKED_DOMAINS ∧
      (∀ hint ∈ BLOCKED_PATH_HINTS,
        containsSub hint.data (pyLower (urlparse u).path).data = false)) ∧
    ((urls.filter is_acceptable_url).length ≤ maxUrls →
      select_top_urls urls maxUrls = urls.filter is_acceptable_url) := by
  refine ⟨?_, ?_, ?_, fun u => is_acceptable_url_iff u, ?_⟩
  · simp [select_top_urls]
  · exact (List.take_sublist maxUrls _).trans (List.filter_sublist urls)
  · intro u hu
    exact List.of_mem_filter ((List.take_sublist maxUrls _).subset hu)
  · intro hlen
    exact List.take_of_length_le hlen

/-- C8 amended witness at a concrete input: a single acceptable URL fits the
maximum and is returned unfiltered. -/
theorem select_top_urls_spec_witness :
    (["https://ok.example/a"].filter is_acceptable_url).length ≤ 3 ∧
    select_top_urls ["https://ok.example/a"] 3
      = ["https://ok.example/a"].filter is_acceptable_url :=
  ⟨by decide, (select_top_urls_spec ["https://ok.example/a"] 3).2.2.2.2 (by decide)⟩

/-- C10: the deny-list matches the lowercased host exactly, so any `http` or
`https` URL whose host is not literally in the set, and whose path carries no
blocked hint, is accepted; in particular `en.wikipedia.org` and
`m.youtube.com`, subdomains of deny-listed domains, are accepted. -/
theorem is_acceptable_url_host_exact :
    (∀ url, ((urlparse url).scheme = "http" ∨ (urlparse url).scheme = "https") →
      pyLower (urlparse url).netloc ∉ BLOCKED_DOMAINS →
      (∀ hint ∈ BLOCKED_PATH_HINTS,
        containsSub hint.data (pyLower (urlparse url).path).data = false) →
      is_acceptable_url url = true) ∧
    is_acceptable_url "https://en.wikipedia.org/wiki/Formal_verification" = true ∧
    "wikipedia.org" ∈ BLOCKED_DOMAINS ∧ "en.wikipedia.org" ∉ BLOCKED_DOMAINS ∧
    is_acceptable_url "https://m.youtube.com/watch" = true ∧
    "youtube.com" ∈ BLOCKED_DOMAINS ∧ "m.youtube.com" ∉ BLOCKED_DOMAINS := by
  refine ⟨?_, by decide, by decide, by decide, by decide, by decide, by decide⟩
  intro url hs hh hp
  exact (is_acceptable_url_iff url).mpr ⟨hs, hh, hp⟩

/-- C10 witness: the generic exact-host acceptance rule applied to a fresh
subdomain URL. -/
theorem is_acceptable_url_host_exact_witness :
    is_acceptable_url "https://de.wikipedia.org/wiki/Beweis" = true :=
  is_acceptable_url_host_exact.1 "https://de.wikipedia.org/wiki/Beweis"
    (by decide) (by decide) (by decide)

theorem getById_map_update {M A : Type} (table : List (TaskRow M A))
    (rid : String) (u : UpdateKwargs A) (now : Nat) :
    getById (table.map (fun r => if r.id == rid then applyKwargs u now r else r)) rid
      = (getById table rid).map (applyKwargs u now) := by
  induction table with
  | nil => simp [getById]
  | cons r t ih =>
    cases hr : r.id == rid
    · simp only [getById, List.map_cons, List.find?_cons] at ih ⊢
      rw [if_neg (by simp [hr]), hr]
      simpa [getById] using ih
    · simp only [getById, List.map_cons, List.find?_cons] at ih ⊢
      rw [if_pos (by simpa using hr)]
      have hid : (applyKwargs u now r).id = r.id := rfl
      rw [hid, hr]
      simp

theorem getById_map_update_other {M A : Type} (table : List (TaskRow M A))
    (rid rid2 : String) (u : UpdateKwargs A) (now : Nat) (hne : rid2 ≠ rid) :
    getById (table.map (fun r => if r.id == rid then applyKwargs u now r else r)) rid2
      = getById table rid2 := by
  induction table with
  | nil => simp [getById]
  | cons r t ih =>
    cases hr : r.id == rid
    · simp only [getById, List.map_cons, List.find?_cons] at ih ⊢
      rw [if_neg (by simp [hr])]
      rw [ih]
    · have hr2 : (r.id == rid2) = false := by
        have : r.id = rid := by simpa using hr
        simp [this]
        exact fun h => absurd h.symm hne
      simp only [getById, List.map_cons, List.find?_cons] at ih ⊢
      rw [if_pos (by simpa using hr)]
      have hid : (applyKwargs u now r).id = r.id := rfl
      rw [hid, hr2]
      simpa using ih

theorem update_entity_on_missing {M A : Type} (table : List (TaskRow M A))
    (rid : String) (u : UpdateKwargs A) (now : Nat)
    (h : getById table rid = none) :
    update_entity table rid u now = (table, none) := by
  unfold update_entity
  cases hE : u.isEmpty
  · simp only [Bool.false_eq_true, if_false]
    have hmap : table.map (fun r => if r.id == rid then applyKwargs u now r else r)
        = table := by
      have hall := List.find?_eq_none.mp h
      calc table.map (fun r => if r.id == rid then applyKwargs u now r else r)
          = table.map id := by
            apply List.map_congr_left
            intro r hrmem
            have : (r.id == rid) = false := by
              have := hall r hrmem
              cases hc : (r.id == rid)
              · rfl
              · exact absurd hc this
            simp [this]
        _ = table := List.map_id table
    rw [hmap, h]
  · simp [hE, h]

theorem isEmpty_fields {A : Type} (u : UpdateKwargs A) (h : u.isEmpty = true) :
    u.status = none ∧ u.stage = none ∧ u.progress_percent = none
      ∧ u.error = none ∧ u.artifacts = none := by
  unfold UpdateKwargs.isEmpty at h
  simp only [Bool.and_eq_true, Option.isNone_iff_eq_none] at h
  exact ⟨h.1.1.1.1, h.1.1.1.2, h.1.1.2, h.1.2, h.2⟩

/-- C6 counterexample: an update call that supplies none of the five
updatable fields (all keyword arguments filtered out) returns the record
unchanged without touching the database, so `updated_at` keeps its old value
5 even though the call happens at time 9 — the timestamp is not "always
refreshed". -/
theorem update_entity_no_refresh_cex :
    (update_entity demoRunTable "r1" ({} : UpdateKwargs RunArtifacts) 9).2
        = some demoRunRow ∧
    (update_entity demoRunTable "r1" ({} : UpdateKwargs RunArtifacts) 9).1
        = demoRunTable ∧
    demoRunRow.updated_at = 5 ∧ (5 : Nat) ≠ 9 :=
  ⟨rfl, rfl, rfl, by decide⟩

/-- C6 amended: every update through `_update_entity` overwrites exactly the
supplied fields among status/stage/progress_percent/error/artifacts, leaves
id, owner, query, created_at, the mode column and every unsupplied updatable
field unchanged, leaves every other record untouched, and sets `updated_at`
to the call time whenever at least one field is supplied — hence the new
`updated_at` is ≥ the old one under a monotone clock; a call supplying no
field leaves the record, including `updated_at`, unchanged. -/
theorem update_entity_frame {M A : Type} (table : List (TaskRow M A))
    (rid : String) (u : UpdateKwargs A) (now : Nat) (r : TaskRow M A)
    (hr : getById table rid = some r) (hclock : r.updated_at ≤ now) :
    (∃ r2, (update_entity table rid u now).2 = some r2 ∧
      r2.id = r.id ∧ r2.user_id = r.user_id ∧ r2.mode = r.mode ∧
      r2.query = r.query ∧ r2.created_at = r.created_at ∧
      (∀ s, u.status = some s → r2.status = s) ∧
      (u.status = none → r2.status = r.status) ∧
      (∀ s, u.stage = some s → r2.stage = s) ∧
      (u.stage = none → r2.stage = r.stage) ∧
      (∀ p, u.progress_percent = some p → r2.progress_percent = p) ∧
      (u.progress_percent = none → r2.progress_percent = r.progress_percent) ∧
      (∀ e, u.error = some e → r2.error = e) ∧
      (u.error = none → r2.error = r.error) ∧
      (∀ a, u.artifacts = some a → r2.artifacts = a) ∧
      (u.artifacts = none → r2.artifacts = r.artifacts) ∧
      r.updated_at ≤ r2.updated_at ∧
      (u.isEmpty = false → r2.updated_at = now) ∧
      (u.isEmpty = true → r2.updated_at = r.updated_at)) ∧
    (∀ rid2, rid2 ≠ rid →
      getById (update_entity table rid u now).1 rid2 = getById table rid2) := by
  cases hE : u.isEmpty
  · have h2 : (update_entity table rid u now).2
        = some (applyKwargs u now r) := by
      unfold update_entity
      rw [if_neg (by simp [hE])]
      simp only
      rw [getById_map_update, hr]
      rfl
    refine ⟨⟨applyKwargs u now r, h2, rfl, rfl, rfl, rfl, rfl, ?_⟩, ?_⟩
    · refine ⟨?_, ?_, ?_, ?_, ?_, ?_, ?_, ?_, ?_, ?_, hclock, fun _ => rfl, ?_⟩
      · intro s hs; simp [applyKwargs, hs]
      · intro hs; simp [applyKwargs, hs]
      · intro s hs; simp [applyKwargs, hs]
      · intro hs; simp [applyKwargs, hs]
      · intro p hp; simp [applyKwargs, hp]
      · intro hp; simp [applyKwargs, hp]
      · intro e he; simp [applyKwargs, he]
      · intro he; simp [applyKwargs, he]
      · intro a ha; simp [applyKwargs, ha]
      · intro ha; simp [applyKwargs, ha]
      · intro h; exact absurd h (by simp [hE])
    · intro rid2 hne
      unfold update_entity
      rw [if_neg (by simp [hE])]
      exact getById_map_update_other table rid rid2 u now hne
  · obtain ⟨h1, h2, h3, h4, h5⟩ := isEmpty_fields u hE
    have hupd : update_entity table rid u now = (table, getById table rid) := by
      unfold update_entity
      rw [if_pos hE]
    refine ⟨⟨r, ?_, rfl, rfl, rfl, rfl, rfl, ?_⟩, ?_⟩
    · rw [hupd, hr]
    · refine ⟨?_, fun _ => rfl, ?_, fun _ => rfl, ?_, fun _ => rfl, ?_,
        fun _ => rfl, ?_, fun _ => rfl, le_refl _, ?_, fun _ => rfl⟩
      · intro s hs; rw [h1] at hs; exact absurd hs (by simp)
      · intro s hs; rw [h2] at hs; exact absurd hs (by simp)
      · intro p hp; rw [h3] at hp; exact absurd hp (by simp)
      · intro e he; rw [h4] at he; exact absurd he (by simp)
      · intro a ha; rw [h5] at ha; exact absurd ha (by simp)
      · intro h; exact absurd h (by simp)
    · intro rid2 _
      rw [hupd]

/-- C6 amended witness: a concrete update supplying status and progress at
time 9 on a record last updated at time 5. -/
theorem update_entity_frame_witness :
    getById demoRunTable "r1" = some demoRunRow ∧
    demoRunRow.updated_at ≤ 9 ∧
    ((∃ r2, (update_entity demoRunTable "r1"
        { status := some "running", progress_percent := some 50 } 9).2 = some r2 ∧
      r2.id = demoRunRow.id ∧ r2.user_id = demoRunRow.user_id ∧
      r2.mode = demoRunRow.mode ∧ r2.query = demoRunRow.query ∧
      r2.created_at = demoRunRow.created_at ∧
      (∀ s, ({ status := some "running", progress_percent := some 50 }
          : UpdateKwargs RunArtifacts).status = some s → r2.status = s) ∧
      (({ status := some "running", progress_percent := some 50 }
          : UpdateKwargs RunArtifacts).status = none → r2.status = demoRunRow.status) ∧
      (∀ s, ({ status := some "running", progress_percent := some 50 }
          : UpdateKwargs RunArtifacts).stage = some s → r2.stage = s) ∧
      (({ status := some "running", progress_percent := some 50 }
          : UpdateKwargs RunArtifacts).stage = none → r2.stage = demoRunRow.stage) ∧
      (∀ p, ({ status := some "running", progress_percent := some 50 }
          : UpdateKwargs RunArtifacts).progress_percent = some p →
          r2.progress_percent = p) ∧
      (({ status := some "running", progress_percent := some 50 }
          : UpdateKwargs RunArtifacts).progress_percent = none →
          r2.progress_percent = demoRunRow.progress_percent) ∧
      (∀ e, ({ status := some "running", progress_percent := some 50 }
          : UpdateKwargs RunArtifacts).error = some e → r2.error = e) ∧
      (({ status := some "running", progress_percent := some 50 }
          : UpdateKwargs RunArtifacts).error = none → r2.error = demoRunRow.error) ∧
      (∀ a, ({ status := some "running", progress_percent := some 50 }
          : UpdateKwargs RunArtifacts).artifacts = some a → r2.artifacts = a) ∧
      (({ status := some "running", progress_percent := some 50 }
          : UpdateKwargs RunArtifacts).artifacts = none →
          r2.artifacts = demoRunRow.artifacts) ∧
      demoRunRow.updated_at ≤ r2.updated_at ∧
      (({ status := some "running", progress_percent := some 50 }
          : UpdateKwargs RunArtifacts).isEmpty = false → r2.updated_at = 9) ∧
      (({ status := some "running", progress_percent := some 50 }
          : UpdateKwargs RunArtifacts).isEmpty = true →
          r2.updated_at = demoRunRow.updated_at)) ∧
    (∀ rid2, rid2 ≠ "r1" →
      getById (update_entity demoRunTable "r1"
        { status := some "running", progress_percent := some 50 } 9).1 rid2
        = getById demoRunTable rid2)) :=
  ⟨rfl, by decide,
    update_entity_frame demoRunTable "r1"
      { status := some "running", progress_percent := some 50 } 9 demoRunRow
      rfl (by decide)⟩

/-- C9: updating a record id that is absent from the table writes nothing —
the table is returned unchanged, no row is created — and the call returns
`None`, for all of `update_run`, `update_brief` and `update_article`. -/
theorem update_missing_id_noop (st : Store) (rid : String) (now : Nat)
    (ur : UpdateKwargs RunArtifacts) (ub : UpdateKwargs BriefArtifacts)
    (ua : UpdateKwargs ArticleArtifacts)
    (hR : get_run_by_id st rid = none) (hB : get_brief_by_id st rid = none)
    (hA : get_article_by_id st rid = none) :
    update_run st rid ur now = (st, none) ∧
    update_brief st rid ub now = (st, none) ∧
    update_article st rid ua now = (st, none) := by
  refine ⟨?_, ?_, ?_⟩
  · unfold update_run
    rw [update_entity_on_missing st.runs rid ur now hR]
  · unfold update_brief
    rw [update_entity_on_missing st.briefs rid ub now hB]
  · unfold update_article
    rw [update_entity_on_missing st.articles rid ua now hA]

/-- C9 witness: updating the absent id `zzz` in a concrete store is a no-op
returning `none` in all three tables. -/
theorem update_missing_id_noop_witness :
    update_run demoStore "zzz" { status := some "failed" } 3 = (demoStore, none) ∧
    update_brief demoStore "zzz" { status := some "failed" } 3 = (demoStore, none) ∧
    update_article demoStore "zzz" { status := some "failed" } 3 = (demoStore, none) :=
  update_missing_id_noop demoStore "zzz" 3 { status := some "failed" }
    { status := some "failed" } { status := some "failed" } rfl rfl rfl

theorem get_brief_by_id_update_self (st : Store) (bid : String)
    (u : UpdateKwargs BriefArtifacts) (now : Nat) (hne : u.isEmpty = false) :
    get_brief_by_id (update_brief st bid u now).1 bid
      = (get_brief_by_id st bid).map (applyKwargs u now) := by
  simp only [update_brief, get_brief_by_id, update_entity, hne, Bool.false_eq_true,
    if_false]
  exact getById_map_update st.briefs bid u now

theorem get_article_by_id_update_self (st : Store) (aid : String)
    (u : UpdateKwargs ArticleArtifacts) (now : Nat) (hne : u.isEmpty = false) :
    get_article_by_id (update_article st aid u now).1 aid
      = (get_article_by_id st aid).map (applyKwargs u now) := by
  simp only [update_article, get_article_by_id, update_entity, hne, Bool.false_eq_true,
    if_false]
  exact getById_map_update st.articles aid u now

theorem bsa_no_urls (env : Env) (q : String) (seeds : List String) (cit ov : String)
    (h : select_top_urls (collect_seed_urls q seeds cit ov) env.max_urls = []) :
    build_source_analysis env q seeds cit ov
      = Except.error (PyExc.valueError noQualifyingMsg) := by
  simp [build_source_analysis, h]

theorem bsa_no_content (env : Env) (q : String) (seeds : List String) (cit ov : String)
    (h1 : select_top_urls (collect_seed_urls q seeds cit ov) env.max_urls ≠ [])
    (h2 : (select_top_urls (collect_seed_urls q seeds cit ov) env.max_urls).filterMap
        env.extract = []) :
    build_source_analysis env q seeds cit ov
      = Except.error (PyExc.valueError noExtractMsg) := by
  simp [build_source_analysis, h1, h2]

theorem brief_body_fallback_of_valueError (env : Env) (st : Store) (c : Nat)
    (bid q : String) (seeds : List String) (cit ov : String) (e : PyExc)
    (he : build_source_analysis env q seeds cit ov = Except.error e)
    (hve : e.isValueError = true) :
    ∃ bn bu po, brief_body env st c bid q seeds cit ov
      = brief_fallback env st c bid q bn bu po := by
  simp only [brief_body, he, hve, if_true]
  exact ⟨_, _, _, rfl⟩

theorem brief_body_uncaught_of_other (env : Env) (st : Store) (c : Nat)
    (bid q : String) (seeds : List String) (cit ov : String) (e : PyExc)
    (he : build_source_analysis env q seeds cit ov = Except.error e)
    (hve : e.isValueError = false) :
    brief_body env st c bid q seeds cit ov = ((st, c), some e) := by
  simp only [brief_body, he, hve, Bool.false_eq_true, if_false]

theorem quick_draft_body_fallback_of_valueError (env : Env) (st : Store) (c : Nat)
    (aid q : String) (seeds : List String) (cit ov : String) (e : PyExc)
    (he : build_source_analysis env q seeds cit ov = Except.error e)
    (hve : e.isValueError = true) :
    ∃ bn bu po wo, quick_draft_body env st c aid q seeds cit ov
      = quick_draft_fallback env st c aid q bn bu po wo := by
  simp only [quick_draft_body, he, hve, if_true]
  exact ⟨_, _, _, _, rfl⟩

theorem quick_draft_body_uncaught_of_other (env : Env) (st : Store) (c : Nat)
    (aid q : String) (seeds : List String) (cit ov : String) (e : PyExc)
    (he : build_source_analysis env q seeds cit ov = Except.error e)
    (hve : e.isValueError = false) :
    quick_draft_body env st c aid q seeds cit ov = ((st, c), some e) := by
  simp only [quick_draft_body, he, hve, Bool.false_eq_true, if_false]

theorem brief_fallback_completes (env : Env) (st : Store) (c : Nat)
    (bid q bn bu po : String) (r : TaskRow Unit BriefArtifacts) (md : String)
    (hr : get_brief_by_id st bid = some r)
    (hmd : build_brief_from_query_with_customization env q bn bu po = Except.ok md) :
    ∃ st2, brief_fallback env st c bid q bn bu po = ((st2, c + 2), none) ∧
      ∃ r2, get_brief_by_id st2 bid = some r2 ∧ r2.status = "completed" ∧
        r2.artifacts = { sources := [], extracted_articles := [], summaries := [],
                         seo_analysis := briefFallbackMsg, brief_markdown := md } := by
  simp only [brief_fallback, hmd]
  refine ⟨_, rfl, ?_⟩
  rw [get_brief_by_id_update_self, get_brief_by_id_update_self, hr]
  exacts [⟨_, rfl, rfl, rfl⟩, rfl, rfl]

theorem quick_draft_fallback_completes (env : Env) (st : Store) (c : Nat)
    (aid q bn bu po wo : String) (r : TaskRow String ArticleArtifacts)
    (md a p : String)
    (hr : get_article_by_id st aid = some r)
    (hmd : build_brief_from_query_with_customization env q bn bu po = Except.ok md)
    (hwa : write_article_from_brief_with_customization env q md bn bu wo
      = Except.ok a)
    (hep : env.export_to_local_doc (if q = "" then "quick-draft" else q) a
      = Except.ok p) :
    ∃ st3, quick_draft_fallback env st c aid q bn bu po wo = ((st3, c + 4), none) ∧
      ∃ r2, get_article_by_id st3 aid = some r2 ∧ r2.status = "completed" ∧
        r2.artifacts = { source_brief_id := none, source_brief_markdown := md,
                         article_markdown := a, export_link := some p } := by
  simp only [quick_draft_fallback, quick_draft_tail, hmd, hwa, hep]
  refine ⟨_, rfl, ?_⟩
  rw [get_article_by_id_update_self, get_article_by_id_update_self,
    get_article_by_id_update_self, get_article_by_id_update_self, hr]
  exacts [⟨_, rfl, rfl, rfl⟩, rfl, rfl, rfl, rfl]

/-- C1: the spec expects a run whose content extraction fails for every
selected URL to end `failed` with a non-empty error, but `process_run`
invokes the nonexistent store method `update` as its very first statement,
before the `try` block, so the orchestrator dies with `AttributeError`, the
store is untouched and the record stays `queued` with no error — the code
cannot deliver the documented behaviour. -/
theorem process_run_no_failed_status :
    sqliteStoreMethods.contains "update" = false ∧
    demoFailEnv.extract "https://example.com/a" = none ∧
    process_run demoFailEnv demoStore 0 "r1" "best espresso machines"
        ["https://example.com/a"] "" ""
      = (demoStore,
         some (PyExc.otherError
           "AttributeError: SQLiteStore object has no attribute update")) ∧
    (get_run_by_id demoStore "r1").map (fun r => (r.status, r.error))
      = some ("queued", none) :=
  ⟨by decide, rfl, rfl, rfl⟩

/-- C2 counterexample: the brief-building model call raises a `ValueError`
that is not the recoverable no-sources condition, yet the orchestrator does
not mark the record failed — the inner `except ValueError` guard catches it
and completes the run through the query-only fallback. -/
theorem process_brief_model_value_error_completed_cex :
    build_brief_with_customization cexBriefEnv "espresso"
        [⟨"https://example.com/a", "Content too short for reliable SEO summary."⟩]
        "model output text" "" "" ""
      = Except.error (PyExc.valueError "model rejected the brief request") ∧
    (get_brief_by_id (process_brief cexBriefEnv cexStore 0 "b1" "espresso"
        ["https://example.com/a"] "" "") "b1").map (fun r => (r.status, r.stage))
      = some ("completed", "completed") :=
  ⟨rfl, rfl⟩

/-- C2 amended: for the Brief and Article orchestrators (quick-draft and
from-brief modes), any exception escaping the `try` suite — that is, any
exception the inner `except ValueError` guard does not absorb — is caught at
the top level and the record is set to status `failed`, stage `failed`,
progress 100 and the exception message, without re-raising; the plain Run
orchestrator instead crashes on its first store call (the method `update`
does not exist), performing no update at all. -/
theorem pipeline_failure_update_spec :
    (∀ (env : Env) (st : Store) (clock : Nat) (bid q : String)
        (seeds : List String) (cit ov : String) (st1 : Store) (c1 : Nat)
        (e : PyExc) (r : TaskRow Unit BriefArtifacts),
      brief_body env ((update_brief st bid briefRunningKwargs clock).1) (clock + 1)
          bid q seeds cit ov = ((st1, c1), some e) →
      get_brief_by_id st1 bid = some r →
      ∃ r2, get_brief_by_id (process_brief env st clock bid q seeds cit ov) bid
          = some r2 ∧ r2.status = "failed" ∧ r2.stage = "failed" ∧
          r2.progress_percent = 100 ∧ r2.error = some e.msg) ∧
    (∀ (env : Env) (st : Store) (clock : Nat) (aid q : String)
        (seeds : List String) (cit ov : String) (st1 : Store) (c1 : Nat)
        (e : PyExc) (r : TaskRow String ArticleArtifacts),
      quick_draft_body env ((update_article st aid quickDraftRunningKwargs clock).1)
          (clock + 1) aid q seeds cit ov = ((st1, c1), some e) →
      get_article_by_id st1 aid = some r →
      ∃ r2, get_article_by_id (process_quick_draft env st clock aid q seeds cit ov) aid
          = some r2 ∧ r2.status = "failed" ∧ r2.stage = "failed" ∧
          r2.progress_percent = 100 ∧ r2.error = some e.msg) ∧
    (∀ (env : Env) (st : Store) (clock : Nat) (aid q sbid bm : String)
        (st1 : Store) (c1 : Nat) (e : PyExc) (r : TaskRow String ArticleArtifacts),
      article_from_brief_body env ((update_article st aid fromBriefRunningKwargs clock).1)
          (clock + 1) aid q sbid bm = ((st1, c1), some e) →
      get_article_by_id st1 aid = some r →
      ∃ r2, get_article_by_id (process_article_from_brief env st clock aid q sbid bm) aid
          = some r2 ∧ r2.status = "failed" ∧ r2.stage = "failed" ∧
          r2.progress_percent = 100 ∧ r2.error = some e.msg) ∧
    (∀ (env : Env) (st : Store) (clock : Nat) (rid q : String)
        (seeds : List String) (cit ov : String),
      process_run env st clock rid q seeds cit ov
        = (st, some (PyExc.otherError
            "AttributeError: SQLiteStore object has no attribute update"))) := by
  refine ⟨?_, ?_, ?_, ?_⟩
  · intro env st clock bid q seeds cit ov st1 c1 e r hbody hr
    have hpb : process_brief env st clock bid q seeds cit ov
        = (update_brief st1 bid
            { status := some "failed", stage := some "failed",
              progress_percent := some 100, error := some (some e.msg) } c1).1 := by
      simp only [process_brief]
      rw [hbody]
    rw [hpb, get_brief_by_id_update_self, hr]
    · exact ⟨_, rfl, rfl, rfl, rfl, rfl⟩
    · rfl
  · intro env st clock aid q seeds cit ov st1 c1 e r hbody hr
    have hpq : process_quick_draft env st clock aid q seeds cit ov
        = (update_article st1 aid
            { status := some "failed", stage := some "failed",
              progress_percent := some 100, error := some (some e.msg) } c1).1 := by
      simp only [process_quick_draft]
      rw [hbody]
    rw [hpq, get_article_by_id_update_self, hr]
    · exact ⟨_, rfl, rfl, rfl, rfl, rfl⟩
    · rfl
  · intro env st clock aid q sbid bm st1 c1 e r hbody hr
    have hpa : process_article_from_brief env st clock aid q sbid bm
        = (update_article st1 aid
            { status := some "failed", stage := some "failed",
              progress_percent := some 100, error := some (some e.msg) } c1).1 := by
      simp only [process_article_from_brief]
      rw [hbody]
    rw [hpa, get_article_by_id_update_self, hr]
    · exact ⟨_, rfl, rfl, rfl, rfl, rfl⟩
    · rfl
  · intro env st clock rid q seeds cit ov
    rfl

/-- C2 amended witness: a non-`ValueError` model failure in the analysis
step of a concrete brief run ends with the four failure fields set. -/
theorem pipeline_failure_update_spec_witness :
    ∃ r2, get_brief_by_id (process_brief quotaFailEnv cexStore 0 "b1" "espresso"
        ["https://example.com/a"] "" "") "b1" = some r2 ∧
      r2.status = "failed" ∧ r2.stage = "failed" ∧ r2.progress_percent = 100 ∧
      r2.error = some (PyExc.otherError "model quota exceeded").msg :=
  pipeline_failure_update_spec.1 quotaFailEnv cexStore 0 "b1" "espresso"
    ["https://example.com/a"] "" "" ((update_brief cexStore "b1" briefRunningKwargs 0).1)
    (0 + 1) (PyExc.otherError "model quota exceeded")
    (applyKwargs briefRunningKwargs 0 demoBriefRow) rfl rfl

/-- C3 counterexample: the source-analysis step succeeds, the brief-building
model call raises a `ValueError` that is not the distinguished no-sources
kind, and the quick-draft orchestrator nevertheless takes the query-only
fallback path, completing the record with the fallback brief. -/
theorem quick_draft_fallback_on_model_value_error_cex :
    build_source_analysis cexBriefEnv "espresso" ["https://example.com/a"] "" ""
      = Except.ok (["https://example.com/a"],
          [⟨"https://example.com/a", "T", "short text"⟩],
          [⟨"https://example.com/a", "Content too short for reliable SEO summary."⟩],
          "model output text") ∧
    build_brief_with_customization cexBriefEnv "espresso"
        [⟨"https://example.com/a", "Content too short for reliable SEO summary."⟩]
        "model output text" "" "" ""
      = Except.error (PyExc.valueError "model rejected the brief request") ∧
    (get_article_by_id (process_quick_draft cexBriefEnv cexStore 0 "a1" "espresso"
        ["https://example.com/a"] "" "") "a1").map
        (fun r => (r.status, r.artifacts.source_brief_markdown))
      = some ("completed", "model output text") :=
  ⟨rfl, rfl, rfl⟩

/-- C3 amended: the two zero-source conditions of the shared source-analysis
step raise `ValueError` with their fixed messages, and the Brief and
quick-draft Article orchestrators take the query-only fallback exactly when a
`ValueError` escapes the guarded region — whether it is the distinguished
no-sources error or a `ValueError` raised by the brief-building model call
inside the same region — while any non-`ValueError` escapes the guard and
fails the run. -/
theorem fallback_guard_spec :
    (∀ (env : Env) (q : String) (seeds : List String) (cit ov : String),
      select_top_urls (collect_seed_urls q seeds cit ov) env.max_urls = [] →
      build_source_analysis env q seeds cit ov
        = Except.error (PyExc.valueError noQualifyingMsg)) ∧
    (∀ (env : Env) (q : String) (seeds : List String) (cit ov : String),
      select_top_urls (collect_seed_urls q seeds cit ov) env.max_urls ≠ [] →
      (select_top_urls (collect_seed_urls q seeds cit ov) env.max_urls).filterMap
          env.extract = [] →
      build_source_analysis env q seeds cit ov
        = Except.error (PyExc.valueError noExtractMsg)) ∧
    (∀ (env : Env) (st : Store) (c : Nat) (bid q : String) (seeds : List String)
        (cit ov : String) (e : PyExc),
      build_source_analysis env q seeds cit ov = Except.error e →
      e.isValueError = true →
      ∃ bn bu po, brief_body env st c bid q seeds cit ov
        = brief_fallback env st c bid q bn bu po) ∧
    (∀ (env : Env) (st : Store) (c : Nat) (bid q : String) (seeds : List String)
        (cit ov : String) (e : PyExc),
      build_source_analysis env q seeds cit ov = Except.error e →
      e.isValueError = false →
      brief_body env st c bid q seeds cit ov = ((st, c), some e)) ∧
    (∀ (env : Env) (st : Store) (c : Nat) (bid q : String) (seeds : List String)
        (cit ov : String) (t : List String) (x : List UrlContent)
        (s : List ArticleSummary) (a : String) (e : PyExc),
      build_source_analysis env q seeds cit ov = Except.ok (t, x, s, a) →
      (∀ bn bu po, build_brief_with_customization env q s a bn bu po
        = Except.error e) →
      e.isValueError = true →
      ∃ st1 bn bu po, brief_body env st c bid q seeds cit ov
        = brief_fallback env st1 (c + 1) bid q bn bu po) ∧
    (∀ (env : Env) (st : Store) (c : Nat) (aid q : String) (seeds : List String)
        (cit ov : String) (e : PyExc),
      build_source_analysis env q seeds cit ov = Except.error e →
      e.isValueError = true →
      ∃ bn bu po wo, quick_draft_body env st c aid q seeds cit ov
        = quick_draft_fallback env st c aid q bn bu po wo) ∧
    (∀ (env : Env) (st : Store) (c : Nat) (aid q : String) (seeds : List String)
        (cit ov : String) (e : PyExc),
      build_source_analysis env q seeds cit ov = Except.error e →
      e.isValueError = false →
      quick_draft_body env st c aid q seeds cit ov = ((st, c), some e)) ∧
    (∀ (env : Env) (st : Store) (c : Nat) (aid q : String) (seeds : List String)
        (cit ov : String) (t : List String) (x : List UrlContent)
        (s : List ArticleSummary) (a : String) (e : PyExc),
      build_source_analysis env q seeds cit ov = Except.ok (t, x, s, a) →
      (∀ bn bu po, build_brief_with_customization env q s a bn bu po
        = Except.error e) →
      e.isValueError = true →
      ∃ st1 bn bu po wo, quick_draft_body env st c aid q seeds cit ov
        = quick_draft_fallback env st1 (c + 1) aid q bn bu po wo) ∧
    (∀ (env : Env) (st : Store) (c : Nat) (bid q : String) (seeds : List String)
        (cit ov : String) (t : List String) (x : List UrlContent)
        (s : List ArticleSummary) (a : String) (e : PyExc),
      build_source_analysis env q seeds cit ov = Except.ok (t, x, s, a) →
      (∀ bn bu po, build_brief_with_customization env q s a bn bu po
        = Except.error e) →
      e.isValueError = false →
      brief_body env st c bid q seeds cit ov
        = (((update_brief st bid
            { stage := some "building_brief", progress_percent := some 78 } c).1,
           c + 1), some e)) ∧
    (∀ (env : Env) (st : Store) (c : Nat) (aid q : String) (seeds : List String)
        (cit ov : String) (t : List String) (x : List UrlContent)
        (s : List ArticleSummary) (a : String) (e : PyExc),
      build_source_analysis env q seeds cit ov = Except.ok (t, x, s, a) →
      (∀ bn bu po, build_brief_with_customization env q s a bn bu po
        = Except.error e) →
      e.isValueError = false →
      quick_draft_body env st c aid q seeds cit ov
        = (((update_article st aid
            { stage := some "building_internal_brief", progress_percent := some 72 } c).1,
           c + 1), some e)) := by
  refine ⟨bsa_no_urls, bsa_no_content, ?_, ?_, ?_, ?_, ?_, ?_, ?_, ?_⟩
  · intro env st c bid q seeds cit ov e he hve
    exact brief_body_fallback_of_valueError env st c bid q seeds cit ov e he hve
  · intro env st c bid q seeds cit ov e he hve
    exact brief_body_uncaught_of_other env st c bid q seeds cit ov e he hve
  · intro env st c bid q seeds cit ov t x s a e hok hbb hve
    simp only [brief_body, hok]
    rw [hbb]
    simp only [hve, if_true]
    exact ⟨_, _, _, _, rfl⟩
  · intro env st c aid q seeds cit ov e he hve
    exact quick_draft_body_fallback_of_valueError env st c aid q seeds cit ov e he hve
  · intro env st c aid q seeds cit ov e he hve
    exact quick_draft_body_uncaught_of_other env st c aid q seeds cit ov e he hve
  · intro env st c aid q seeds cit ov t x s a e hok hbb hve
    simp only [quick_draft_body, hok]
    rw [hbb]
    simp only [hve, if_true]
    exact ⟨_, _, _, _, _, rfl⟩
  · intro env st c bid q seeds cit ov t x s a e hok hbb hve
    simp only [brief_body, hok]
    rw [hbb]
    simp only [hve, Bool.false_eq_true, if_false]
  · intro env st c aid q seeds cit ov t x s a e hok hbb hve
    simp only [quick_draft_body, hok]
    rw [hbb]
    simp only [hve, Bool.false_eq_true, if_false]

/-- C3 amended witness: a concrete brief run with no candidate URLs takes
the fallback path through the guard. -/
theorem fallback_guard_spec_witness :
    ∃ bn bu po, brief_body demoFailEnv cexStore 1 "b1" "espresso" [] "" ""
      = brief_fallback demoFailEnv cexStore 1 "b1" "espresso" bn bu po :=
  fallback_guard_spec.2.2.1 demoFailEnv cexStore 1 "b1" "espresso" [] "" "" _
    rfl rfl

/-- C4 counterexample: the retry-stuck-runs sweep is not disabled — startup
calls `start_scheduler`, which registers `_retry_stuck_runs` on a two-minute
interval. -/
theorem retry_sweep_scheduled_cex :
    on_startup = [{ name := "_retry_stuck_runs", interval_minutes := 2 }] ∧
    "_retry_stuck_runs" ∈ on_startup.map SchedulerJob.name :=
  ⟨rfl, by decide⟩

/-- C4 amended: the retry sweep is still scheduled at startup every two
minutes, but every invocation calls the store method `list_queued_runs`,
which no store class defines, so the sweep raises `AttributeError` before
dispatching and no queued or running record is ever automatically
re-dispatched to an orchestrator. -/
theorem retry_sweep_inoperative :
    on_startup = [{ name := "_retry_stuck_runs", interval_minutes := 2 }] ∧
    sqliteStoreMethods.contains "list_queued_runs" = false ∧
    ∀ st : Store, retry_stuck_runs st
      = Except.error (PyExc.otherError
          "AttributeError: SQLiteStore object has no attribute list_queued_runs") :=
  ⟨rfl, by decide, fun _ => rfl⟩

/-- C5: a Brief or quick-draft Article run whose seed/citation/overview
inputs yield zero qualifying URLs takes the query-only fallback and, provided
the fallback model calls and the export succeed with non-empty output, ends
`completed` — never `failed` — with a non-empty degraded artifact (the
fallback brief markdown carrying the caveat analysis text, respectively the
article written from the internal fallback brief). -/
theorem fallback_completes_spec :
    (∀ (env : Env) (st : Store) (clock : Nat) (bid q : String)
        (seeds : List String) (cit ov : String) (r : TaskRow Unit BriefArtifacts),
      select_top_urls (collect_seed_urls q seeds cit ov) env.max_urls = [] →
      get_brief_by_id st bid = some r →
      (∀ bn bu po, ∃ md, build_brief_from_query_with_customization env q bn bu po
          = Except.ok md ∧ md ≠ "") →
      ∃ r2, get_brief_by_id (process_brief env st clock bid q seeds cit ov) bid
          = some r2 ∧ r2.status = "completed" ∧
          r2.artifacts.brief_markdown ≠ "" ∧
          r2.artifacts.seo_analysis = briefFallbackMsg) ∧
    (∀ (env : Env) (st : Store) (clock : Nat) (aid q : String)
        (seeds : List String) (cit ov : String) (r : TaskRow String ArticleArtifacts),
      select_top_urls (collect_seed_urls q seeds cit ov) env.max_urls = [] →
      get_article_by_id st aid = some r →
      (∀ bn bu po, ∃ md, build_brief_from_query_with_customization env q bn bu po
          = Except.ok md ∧ md ≠ "") →
      (∀ bn bu wo bm, ∃ a, write_article_from_brief_with_customization env q bm bn bu wo
          = Except.ok a ∧ a ≠ "") →
      (∀ q2 md, ∃ p, env.export_to_local_doc q2 md = Except.ok p) →
      ∃ r2, get_article_by_id (process_quick_draft env st clock aid q seeds cit ov) aid
          = some r2 ∧ r2.status = "completed" ∧
          r2.artifacts.article_markdown ≠ "" ∧
          r2.artifacts.source_brief_id = none) := by
  constructor
  · intro env st clock bid q seeds cit ov r hempty hr hfb
    have hbsa := bsa_no_urls env q seeds cit ov hempty
    obtain ⟨bn, bu, po, hbb⟩ := brief_body_fallback_of_valueError env
      ((update_brief st bid briefRunningKwargs clock).1) (clock + 1) bid q seeds
      cit ov _ hbsa rfl
    obtain ⟨md, hmd, hmdne⟩ := hfb bn bu po
    have hr0 : get_brief_by_id ((update_brief st bid briefRunningKwargs clock).1) bid
        = some (applyKwargs briefRunningKwargs clock r) := by
      rw [get_brief_by_id_update_self, hr]
      · rfl
      · rfl
    obtain ⟨st2, hfall, r2, hr2, hst2, hart⟩ :=
      brief_fallback_completes env ((update_brief st bid briefRunningKwargs clock).1)
        (clock + 1) bid q bn bu po _ md hr0 hmd
    have hpb : process_brief env st clock bid q seeds cit ov = st2 := by
      simp only [process_brief]
      rw [hbb, hfall]
    refine ⟨r2, by rw [hpb]; exact hr2, hst2, ?_, ?_⟩
    · rw [hart]
      exact hmdne
    · rw [hart]
  · intro env st clock aid q seeds cit ov r hempty hr hfb hwr hex
    have hbsa := bsa_no_urls env q seeds cit ov hempty
    obtain ⟨bn, bu, po, wo, hbb⟩ := quick_draft_body_fallback_of_valueError env
      ((update_article st aid quickDraftRunningKwargs clock).1) (clock + 1) aid q
      seeds cit ov _ hbsa rfl
    obtain ⟨md, hmd, hmdne⟩ := hfb bn bu po
    obtain ⟨a, hwa, hane⟩ := hwr bn bu wo md
    obtain ⟨p, hp⟩ := hex (if q = "" then "quick-draft" else q) md
    obtain ⟨p2, hp2⟩ := hex (if q = "" then "quick-draft" else q) a
    have hr0 : get_article_by_id ((update_article st aid quickDraftRunningKwargs clock).1) aid
        = some (applyKwargs quickDraftRunningKwargs clock r) := by
      rw [get_article_by_id_update_self, hr]
      · rfl
      · rfl
    obtain ⟨st3, hfall, r2, hr2, hst3, hart⟩ :=
      quick_draft_fallback_completes env
        ((update_article st aid quickDraftRunningKwargs clock).1) (clock + 1) aid q
        bn bu po wo _ md a p2 hr0 hmd hwa hp2
    have hpq : process_quick_draft env st clock aid q seeds cit ov = st3 := by
      simp only [process_quick_draft]
      rw [hbb, hfall]
    refine ⟨r2, by rw [hpq]; exact hr2, hst3, ?_, ?_⟩
    · rw [hart]
      exact hane
    · rw [hart]

/-- C5 witness: with the LLM disabled every model call returns the fixed
non-empty placeholder, so a concrete no-URL brief run completes through the
fallback. -/
theorem fallback_completes_spec_witness :
    select_top_urls (collect_seed_urls "espresso" [] "" "") demoFailEnv.max_urls = [] ∧
    get_brief_by_id cexStore "b1" = some demoBriefRow ∧
    ∃ r2, get_brief_by_id (process_brief demoFailEnv cexStore 0 "b1" "espresso"
        [] "" "") "b1" = some r2 ∧ r2.status = "completed" ∧
      r2.artifacts.brief_markdown ≠ "" ∧
      r2.artifacts.seo_analysis = briefFallbackMsg :=
  ⟨rfl, rfl,
    fallback_completes_spec.1 demoFailEnv cexStore 0 "b1" "espresso" [] "" ""
      demoBriefRow rfl rfl
      (fun _ _ _ =>
        ⟨"LLM disabled. Add OPENAI_API_KEY to enable model output.", rfl,
          by decide⟩)⟩
